import Mathlib

/-!
Verification development for the TaskFlow live-audio streaming pipeline
(`src/components/LiveAssistant.tsx` and the audio utility module).

Samples are modelled as rationals, machine integers as `Int`/`Nat` with
explicit bounds, byte buffers as `List Nat` with every element `< 256`,
and the audio clock as a rational number of seconds.
-/

/-! ## PCM encoder -/

/-- Truncation toward zero, the rounding performed when a floating-point
value is stored into an `Int16Array` slot. -/
def truncQ (q : ℚ) : ℤ := if 0 ≤ q then ⌊q⌋ else ⌈q⌉

/-- Modelled from the spec: `audioUtils.float32ToPCM16` is not under `src/`,
only its tests and callers are.  Spec 4.1: clamp each sample to `[-1.0, 1.0]`. -/
def clampSample (s : ℚ) : ℚ := max (-1) (min 1 s)

/-- Modelled from the spec: linear map to the int16 range, asymmetric —
the negative extreme uses the larger magnitude bound `0x8000`, the positive
uses `0x7FFF` (spec 4.1). -/
def scaleSample (c : ℚ) : ℤ := if c < 0 then truncQ (c * 32768) else truncQ (c * 32767)

/-- Modelled from the spec: `floatToInt16Pcm` (source name `float32ToPCM16`),
per-sample clamp then scale, processing the input in order. -/
def float32ToPCM16 : List ℚ → List ℤ
  | [] => []
  | s :: rest => scaleSample (clampSample s) :: float32ToPCM16 rest

/-! ## Base64 transport encoding -/

/-- Modelled from the spec: the standard base64 alphabet character for a
sextet value `n < 64`. -/
def b64Char (n : Nat) : Char :=
  if n < 26 then Char.ofNat (65 + n)
  else if n < 52 then Char.ofNat (71 + n)
  else if n < 62 then Char.ofNat (n - 4)
  else if n = 62 then Char.ofNat 43
  else Char.ofNat 47

/-- Modelled from the spec: the sextet value of a base64 alphabet character
(inverse lookup used by decoding). -/
def b64Val (c : Char) : Nat :=
  if c = Char.ofNat 43 then 62
  else if c = Char.ofNat 47 then 63
  else if 97 ≤ c.toNat then c.toNat - 71
  else if 65 ≤ c.toNat then c.toNat - 65
  else c.toNat + 4

/-- Modelled from the spec: standard base64 encoding of a byte list, three
bytes to four characters, with `=` padding for a final group of one or two
bytes.  (Source name `arrayBufferToBase64`, absent from `src/`.) -/
def encodeB64 : List Nat → List Char
  | [] => []
  | [b0] => [b64Char (b0 / 4), b64Char (b0 % 4 * 16), Char.ofNat 61, Char.ofNat 61]
  | [b0, b1] => [b64Char (b0 / 4), b64Char (b0 % 4 * 16 + b1 / 16),
      b64Char (b1 % 16 * 4), Char.ofNat 61]
  | b0 :: b1 :: b2 :: rest =>
      b64Char (b0 / 4) :: b64Char (b0 % 4 * 16 + b1 / 16) ::
      b64Char (b1 % 16 * 4 + b2 / 64) :: b64Char (b2 % 64) :: encodeB64 rest

/-- Modelled from the spec: standard base64 decoding, four characters to
three bytes, honouring `=` padding.  (Source name `base64ToUint8Array`.) -/
def decodeB64 : List Char → List Nat
  | c0 :: c1 :: c2 :: c3 :: rest =>
      if c2 = Char.ofNat 61 then [b64Val c0 * 4 + b64Val c1 / 16]
      else if c3 = Char.ofNat 61 then
        [b64Val c0 * 4 + b64Val c1 / 16, b64Val c1 % 16 * 16 + b64Val c2 / 4]
      else
        (b64Val c0 * 4 + b64Val c1 / 16) :: (b64Val c1 % 16 * 16 + b64Val c2 / 4) ::
        (b64Val c2 % 4 * 64 + b64Val c3) :: decodeB64 rest
  | _ => []

/-- Modelled from the spec: `bytesToPortableText` — serialize a byte buffer
to a text-safe transport encoding (standard base64). -/
def bytesToPortableText (b : List Nat) : String := String.mk (encodeB64 b)

/-- Modelled from the spec: `textToBytes` — the inverse transport decoding. -/
def textToBytes (s : String) : List Nat := decodeB64 s.data

lemma b64Val_b64Char : ∀ n < 64, b64Val (b64Char n) = n := by decide

lemma b64Char_ne_pad : ∀ n < 64, b64Char n ≠ Char.ofNat 61 := by decide

lemma decodeB64_encodeB64 : ∀ b : List Nat, (∀ x ∈ b, x < 256) →
    decodeB64 (encodeB64 b) = b := by
  intro b
  induction b using encodeB64.induct with
  | case1 =>
    intro _
    rfl
  | case2 b0 =>
    intro hb
    have h0 : b0 < 256 := hb b0 (by simp)
    have e1 := b64Val_b64Char (b0 / 4) (by omega)
    have e2 := b64Val_b64Char (b0 % 4 * 16) (by omega)
    simp [encodeB64, decodeB64, e1, e2]
    all_goals omega
  | case3 b0 b1 =>
    intro hb
    have h0 : b0 < 256 := hb b0 (by simp)
    have h1 : b1 < 256 := hb b1 (by simp)
    have hne := b64Char_ne_pad (b1 % 16 * 4) (by omega)
    have e1 := b64Val_b64Char (b0 / 4) (by omega)
    have e2 := b64Val_b64Char (b0 % 4 * 16 + b1 / 16) (by omega)
    have e3 := b64Val_b64Char (b1 % 16 * 4) (by omega)
    simp [encodeB64, decodeB64, hne, e1, e2, e3]
    all_goals omega
  | case4 b0 b1 b2 rest ih =>
    intro hb
    have h0 : b0 < 256 := hb b0 (by simp)
    have h1 : b1 < 256 := hb b1 (by simp)
    have h2 : b2 < 256 := hb b2 (by simp)
    have hne2 := b64Char_ne_pad (b1 % 16 * 4 + b2 / 64) (by omega)
    have hne3 := b64Char_ne_pad (b2 % 64) (by omega)
    have e1 := b64Val_b64Char (b0 / 4) (by omega)
    have e2 := b64Val_b64Char (b0 % 4 * 16 + b1 / 16) (by omega)
    have e3 := b64Val_b64Char (b1 % 16 * 4 + b2 / 64) (by omega)
    have e4 := b64Val_b64Char (b2 % 64) (by omega)
    have ihr := ih (fun x hx => hb x (by simp [hx]))
    simp [encodeB64, decodeB64, hne2, hne3, e1, e2, e3, e4, ihr]
    all_goals omega

/-! ## Playback scheduler (`onmessage`, LiveAssistant.tsx lines 90-123)

One audio chunk is processed atomically here (decode completion and
scheduling together); `DecState` below refines this with the decode
suspension point made explicit. -/

/-- State of the playback scheduler: the timeline cursor `nextStartTime`
(`nextStartTimeRef`), the scheduled-source set (`scheduledSourcesRef`) as a
list of (start time, duration) pairs in scheduling order, and the sources
stopped so far (`source.stop()` calls, which the code wraps in a
`try`/`catch` that ignores errors, so stopping always succeeds here). -/
structure SchedState where
  nextStartTime : ℚ
  scheduled : List (ℚ × ℚ)
  stopped : List (ℚ × ℚ)
deriving DecidableEq, Repr

/-- Initial scheduler state: `nextStartTimeRef` starts at 0, no sources. -/
def initSched : SchedState := ⟨0, [], []⟩

/-- The start time chosen for a chunk arriving when the output clock reads
`now`: lines 105-108, `if (nextStartTime < currentTime) nextStartTime =
currentTime`, then the buffer starts at `nextStartTime`. -/
def chunkStart (st : SchedState) (now : ℚ) : ℚ :=
  if st.nextStartTime < now then now else st.nextStartTime

/-- Processing one decoded audio chunk of duration `d` at clock time `now`:
lines 100-112 — schedule at `chunkStart`, append to the scheduled-source
set, advance the cursor by the buffer duration. -/
def processChunk (st : SchedState) (d now : ℚ) : SchedState :=
  { st with nextStartTime := chunkStart st now + d,
            scheduled := st.scheduled ++ [(chunkStart st now, d)] }

/-- Processing an `interrupted` event: lines 116-123 — stop every scheduled
source (best-effort, errors ignored), clear the set, reset the cursor to 0. -/
def processInterrupt (st : SchedState) : SchedState :=
  { nextStartTime := 0, scheduled := [], stopped := st.stopped ++ st.scheduled }

/-- Contiguity test for a scheduled list: each buffer starts exactly where
the previous one ends (start + duration). -/
def contiguousB : List (ℚ × ℚ) → Bool
  | (s1, d1) :: (s2, d2) :: rest => decide (s2 = s1 + d1) && contiguousB ((s2, d2) :: rest)
  | _ => true

lemma chunkStart_ge (st : SchedState) (now : ℚ) : now ≤ chunkStart st now := by
  unfold chunkStart
  split_ifs with h
  · exact le_refl now
  · exact le_of_not_lt h

lemma chunkStart_of_le (st : SchedState) (now : ℚ) (h : now ≤ st.nextStartTime) :
    chunkStart st now = st.nextStartTime := by
  unfold chunkStart
  rw [if_neg (not_lt.mpr h)]

/-! ## Playback scheduler with the decode suspension point explicit

`onmessage` is an `async` function that `await`s `decodeAudioData` before
scheduling (line 95); other events can be processed during that await.
Events: a chunk arriving (decode begins), a decode completing (the chunk is
scheduled), and an interruption.  Chunks carry an id and record the
interruption epoch (number of interruptions processed so far) at arrival. -/

/-- An event at the inbound side of the playback scheduler. -/
inductive DEv : Type
  | arrive (id : Nat) (d : ℚ)
  | decodeDone (id : Nat) (now : ℚ)
  | interrupt
deriving DecidableEq, Repr

/-- Scheduler state with pending (in-decode) chunks: `pending` holds
(id, duration, arrival epoch); `scheduled` holds (id, arrival epoch) in
scheduling order; `stopped` holds ids of stopped sources. -/
structure DecState where
  epoch : Nat
  pending : List (Nat × ℚ × Nat)
  scheduled : List (Nat × Nat)
  stopped : List Nat
  nextStartTime : ℚ
deriving DecidableEq, Repr

/-- Initial state of the refined scheduler. -/
def initDec : DecState := ⟨0, [], [], [], 0⟩

/-- One step of the refined scheduler.  A completed decode schedules its
buffer unconditionally — the code never checks whether an interruption
happened while the decode was in flight.  An interruption stops and clears
only the already-scheduled sources; pending decodes are untouched. -/
def dstep (st : DecState) : DEv → DecState
  | DEv.arrive id d => { st with pending := st.pending ++ [(id, d, st.epoch)] }
  | DEv.decodeDone id now =>
      match st.pending.find? (fun p => p.1 == id) with
      | some p =>
          let start := if st.nextStartTime < now then now else st.nextStartTime
          { st with pending := st.pending.filter (fun q => !(q.1 == id)),
                    scheduled := st.scheduled ++ [(id, p.2.2)],
                    nextStartTime := start + p.2.1 }
      | none => st
  | DEv.interrupt =>
      { st with epoch := st.epoch + 1,
                stopped := st.stopped ++ st.scheduled.map (fun x => x.1),
                scheduled := [], nextStartTime := 0 }

/-- Run the refined scheduler over a list of events from the initial state. -/
def drun (evs : List DEv) : DecState := evs.foldl dstep initDec

/-! ## Session controller (`connect`/`disconnect`, LiveAssistant.tsx) -/

/-- The controller-visible state: the three React state values
(`isConnected`, `isMuted`, `logs`) and one flag per resource held through a
ref (`streamRef` tracks live, `sourceRef`/`processorRef` connected,
`inputContextRef`/`outputContextRef` open, session open). -/
structure AppState where
  isConnected : Bool
  isMuted : Bool
  logs : List String
  micHeld : Bool
  sourceConnected : Bool
  processorConnected : Bool
  inputCtxOpen : Bool
  outputCtxOpen : Bool
  sessionOpen : Bool
deriving DecidableEq, Repr

/-- The freshly mounted component: nothing connected, nothing held. -/
def initApp : AppState :=
  ⟨false, false, [], false, false, false, false, false, false⟩

/-- `addLog` (line 26): prepend the message and keep the five most recent. -/
def addLog (msg : String) (logs : List String) : List String :=
  (msg :: logs).take 5

/-- `disconnect()` (lines 144-162): stop the stream tracks, disconnect the
source and processor nodes, close both audio contexts, close the session —
each through optional chaining, so a missing resource is skipped without
error — then reset `isConnected`, `isMuted` and `logs`. -/
def disconnect (s : AppState) : AppState :=
  { s with isConnected := false, isMuted := false, logs := [],
           micHeld := false, sourceConnected := false, processorConnected := false,
           inputCtxOpen := false, outputCtxOpen := false, sessionOpen := false }

/-- A resource-release action performed by `disconnect()`. -/
inductive RelEvent : Type
  | stopTracks
  | disconnectSource
  | disconnectProcessor
  | closeInputCtx
  | closeOutputCtx
  | closeSession
deriving DecidableEq, Repr

/-- The release actions `disconnect()` performs, in source order
(lines 146-157): stream tracks, source node, processor node, input context,
output context, session.  Optional chaining skips resources never acquired. -/
def disconnectTrace (s : AppState) : List RelEvent :=
  (if s.micHeld then [RelEvent.stopTracks] else []) ++
  (if s.sourceConnected then [RelEvent.disconnectSource] else []) ++
  (if s.processorConnected then [RelEvent.disconnectProcessor] else []) ++
  (if s.inputCtxOpen then [RelEvent.closeInputCtx] else []) ++
  (if s.outputCtxOpen then [RelEvent.closeOutputCtx] else []) ++
  (if s.sessionOpen then [RelEvent.closeSession] else [])

/-- The pipeline component owning each released resource (spec section 2):
the stream, audio-graph nodes and input context belong to Capture, the
output context to Playback, the session to Transport. -/
inductive Comp : Type
  | capture
  | transport
  | playback
deriving DecidableEq, Repr

/-- Component owning a release action. -/
def compOf : RelEvent → Comp
  | RelEvent.stopTracks => Comp.capture
  | RelEvent.disconnectSource => Comp.capture
  | RelEvent.disconnectProcessor => Comp.capture
  | RelEvent.closeInputCtx => Comp.capture
  | RelEvent.closeOutputCtx => Comp.playback
  | RelEvent.closeSession => Comp.transport

/-- Rank of a component under the order claimed by the spec:
Capture, then Transport, then Playback. -/
def claimRank : Comp → Nat
  | Comp.capture => 0
  | Comp.transport => 1
  | Comp.playback => 2

/-- Rank of a component under the order the code actually uses:
Capture, then Playback, then Transport. -/
def codeRank : Comp → Nat
  | Comp.capture => 0
  | Comp.playback => 1
  | Comp.transport => 2

/-- Monotonicity test for a list of ranks. -/
def monotoneB : List Nat → Bool
  | a :: b :: rest => Nat.ble a b && monotoneB (b :: rest)
  | _ => true

/-- All resource flags of a state are released. -/
def allReleasedB (s : AppState) : Bool :=
  !s.micHeld && !s.sourceConnected && !s.processorConnected &&
  !s.inputCtxOpen && !s.outputCtxOpen && !s.sessionOpen

/-- The state right before teardown in a fully established session:
connected, every resource held. -/
def fullApp : AppState :=
  ⟨true, false, [], true, true, true, true, true, true⟩

/-! ### `connect()` paths (lines 28-142) -/

/-- A step of a `connect()` attempt, in the order the code performs them:
audio contexts are created (lines 39-40), then `getUserMedia` acquires the
microphone (line 42), then the live session is attempted (line 47); the
frame-processing pipeline is wired only inside `onopen` (lines 64-88). -/
inductive CStep : Type
  | createContexts
  | acquireMic
  | startSessionAttempt
  | wireProcessor
deriving DecidableEq, Repr

/-- How a `connect()` attempt can end. -/
inductive COutcome : Type
  | keyMissing
  | deviceFail
  | connectionFail
  | success
deriving DecidableEq, Repr

/-- The steps a `connect()` attempt performs before settling, per outcome:
a missing API key returns before any setup; a device failure happens after
the contexts were created; a connection failure happens after the
microphone was acquired; only a successful open wires the processor. -/
def connectAttemptTrace : COutcome → List CStep
  | COutcome.keyMissing => []
  | COutcome.deviceFail => [CStep.createContexts]
  | COutcome.connectionFail =>
      [CStep.createContexts, CStep.acquireMic, CStep.startSessionAttempt]
  | COutcome.success =>
      [CStep.createContexts, CStep.acquireMic, CStep.startSessionAttempt,
       CStep.wireProcessor]

/-- `connect()` when `getUserMedia` rejects: the contexts were already
created (lines 39-40); the `catch` block (lines 138-141) only logs
"Connection failed" — it closes nothing and releases nothing. -/
def connectDeviceFail (s : AppState) : AppState :=
  { s with inputCtxOpen := true, outputCtxOpen := true,
           logs := addLog ("Connection failed") s.logs }

/-- `connect()` when the live session cannot be established: contexts
created, microphone acquired, then the `onerror` callback (lines 129-133)
logs and calls `disconnect()`. -/
def connectConnectionFail (s : AppState) : AppState :=
  disconnect { s with inputCtxOpen := true, outputCtxOpen := true, micHeld := true,
                      logs := addLog ("Error occurred")
                        (addLog ("Connecting to Live API...") s.logs) }

/-! ## Mute flag and the capture callback (lines 71-85, 190-197)

`onaudioprocess` is a closure created inside `onopen` during `connect()`;
the `isMuted` it reads is the React state value of the render in which
`connect` was created, not the current one.  The model therefore carries
both the current UI flag and the value captured by the installed callback. -/

/-- Mute state as seen by the UI and by the installed capture callback. -/
structure MuteModel where
  uiMuted : Bool
  capturedMuted : Bool
deriving DecidableEq, Repr

/-- Installing the capture callback at connect time captures the mute flag
of the connecting render. -/
def connectCapture (uiMuted : Bool) : MuteModel := ⟨uiMuted, uiMuted⟩

/-- The mute button (line 193): flips the React state; the installed
callback's captured value is unchanged. -/
def toggleMute (m : MuteModel) : MuteModel := { m with uiMuted := !m.uiMuted }

/-- The per-frame capture callback (lines 71-85): checks the (captured)
mute flag; when unmuted, encodes the frame to PCM16 and sends it. -/
def onAudioProcess (m : MuteModel) (frame : List ℚ) : Option (List ℤ) :=
  if m.capturedMuted then none else some (float32ToPCM16 frame)

/-- The frames that reach the Transport when a list of frames is captured
under mute state `m`. -/
def sentFrames (m : MuteModel) (frames : List (List ℚ)) : List (List ℤ) :=
  frames.filterMap (onAudioProcess m)

lemma sentFrames_captured_unmuted (m : MuteModel) (frames : List (List ℚ))
    (h : m.capturedMuted = false) :
    sentFrames m frames = frames.map float32ToPCM16 := by
  induction frames with
  | nil => rfl
  | cons f rest ih =>
    simp [sentFrames, onAudioProcess, h, List.filterMap_cons] at ih ⊢
    exact ih

/-! ## Claims -/

lemma float32ToPCM16_eq_map (l : List ℚ) :
    float32ToPCM16 l = l.map (fun x => scaleSample (clampSample x)) := by
  induction l with
  | nil => rfl
  | cons x rest ih => simp [float32ToPCM16, ih]

lemma scaleSample_one : scaleSample 1 = 32767 := by
  norm_num [scaleSample, truncQ]

lemma scaleSample_neg_one : scaleSample (-1) = -32768 := by
  norm_num [scaleSample, truncQ]
  rw [show ((-32768 : ℚ)) = ((-32768 : ℤ) : ℚ) by norm_num]
  exact Int.ceil_intCast _

/-- C3: `float32ToPCM16` preserves length, maps each sample by clamping to
`[-1, 1]` and then scaling linearly (negative extreme to `-0x8000`,
positive to `0x7FFF`); every sample `≥ 1` yields `32767`, every sample
`≤ -1` yields `-32768` (clamped, not wrapped), `0` yields `0`, and the
empty input yields the empty output.  Purity and determinism hold because
the model is a function of its input alone. -/
theorem c3_pcm_encode (s : ℚ) (l : List ℚ) :
    (float32ToPCM16 l).length = l.length
    ∧ float32ToPCM16 l = l.map (fun x => scaleSample (clampSample x))
    ∧ (1 ≤ s → float32ToPCM16 [s] = [32767])
    ∧ (s ≤ -1 → float32ToPCM16 [s] = [-32768])
    ∧ float32ToPCM16 [(0 : ℚ)] = [0]
    ∧ float32ToPCM16 ([] : List ℚ) = [] := by
  refine ⟨by rw [float32ToPCM16_eq_map, List.length_map], float32ToPCM16_eq_map l, ?_, ?_, ?_, rfl⟩
  · intro hs
    have hc : clampSample s = 1 := by
      unfold clampSample
      rw [min_eq_left hs, max_eq_right (by norm_num : (-1 : ℚ) ≤ 1)]
    show [scaleSample (clampSample s)] = [32767]
    rw [hc, scaleSample_one]
  · intro hs
    have hc : clampSample s = -1 := by
      unfold clampSample
      rw [min_eq_right (le_trans hs (by norm_num)), max_eq_left hs]
    show [scaleSample (clampSample s)] = [-32768]
    rw [hc, scaleSample_neg_one]
  · show [scaleSample (clampSample 0)] = [0]
    norm_num [clampSample, scaleSample, truncQ]

/-- Witness for C3 at concrete out-of-range samples `2` and `-2`. -/
theorem c3_witness :
    ((1 : ℚ) ≤ 2 ∧ float32ToPCM16 [(2 : ℚ)] = [32767])
    ∧ ((-2 : ℚ) ≤ -1 ∧ float32ToPCM16 [(-2 : ℚ)] = [-32768]) :=
  ⟨⟨by norm_num, (c3_pcm_encode 2 []).2.2.1 (by norm_num)⟩,
   ⟨by norm_num, (c3_pcm_encode (-2) []).2.2.2.1 (by norm_num)⟩⟩

/-- C4: decoding the transport text encoding of any byte sequence, the
empty one included, returns the bytes exactly:
`textToBytes (bytesToPortableText b) = b`. -/
theorem c4_roundtrip (b : List Nat) (hb : ∀ x ∈ b, x < 256) :
    textToBytes (bytesToPortableText b) = b := by
  show decodeB64 (encodeB64 b) = b
  exact decodeB64_encodeB64 b hb

/-- Witness for C4 on a concrete four-byte buffer (length `3 k + 1`, so the
padded tail group is exercised). -/
theorem c4_witness :
    (∀ x ∈ [0, 7, 255, 16], x < 256)
    ∧ textToBytes (bytesToPortableText [0, 7, 255, 16]) = [0, 7, 255, 16] :=
  ⟨by decide, c4_roundtrip [0, 7, 255, 16] (by decide)⟩

/-- C1 counterexample: three chunks of duration 1 arrive consecutively with
no interruption, at output clock times 0, 5, 5.  The code schedules them at
0, 5, 6 — the second chunk arrives after the cursor has fallen behind the
clock, the catch-up branch moves the start to the clock time, and the start
times are not contiguous (`5 ≠ 0 + 1`), so no `t0` with starts
`t0, t0 + d1, t0 + d1 + d2` exists. -/
theorem c1_counterexample :
    (processChunk (processChunk (processChunk initSched 1 0) 1 5) 1 5).scheduled
      = [(0, 1), (5, 1), (6, 1)]
    ∧ contiguousB
        (processChunk (processChunk (processChunk initSched 1 0) 1 5) 1 5).scheduled
      = false := by
  have h : (processChunk (processChunk (processChunk initSched 1 0) 1 5) 1 5).scheduled
      = [(0, 1), (5, 1), (6, 1)] := by
    norm_num [processChunk, chunkStart, initSched]
  refine ⟨h, ?_⟩
  rw [h]
  norm_num [contiguousB]

/-- C1 (amended): when no chunk arrives after the cursor has fallen behind
the output clock (each arrival time is at most the cursor value at that
point), three consecutive chunks with no interruption are scheduled at the
contiguous start times `t0, t0 + d1, t0 + d1 + d2` with
`t0 = chunkStart st0 now1`, and every start time is at least the output
clock time at the moment it is scheduled. -/
theorem c1_contiguous_no_stall (st0 : SchedState) (d1 d2 d3 now1 now2 now3 : ℚ)
    (h2 : now2 ≤ chunkStart st0 now1 + d1)
    (h3 : now3 ≤ chunkStart st0 now1 + d1 + d2) :
    (processChunk (processChunk (processChunk st0 d1 now1) d2 now2) d3 now3).scheduled
      = st0.scheduled ++ [(chunkStart st0 now1, d1), (chunkStart st0 now1 + d1, d2),
          (chunkStart st0 now1 + d1 + d2, d3)]
    ∧ now1 ≤ chunkStart st0 now1
    ∧ now2 ≤ chunkStart st0 now1 + d1
    ∧ now3 ≤ chunkStart st0 now1 + d1 + d2 := by
  have hn1 : (processChunk st0 d1 now1).nextStartTime = chunkStart st0 now1 + d1 := rfl
  have hc2 : chunkStart (processChunk st0 d1 now1) now2 = chunkStart st0 now1 + d1 := by
    rw [chunkStart_of_le _ _ (by rw [hn1]; exact h2)]
    exact hn1
  have hn2 : (processChunk (processChunk st0 d1 now1) d2 now2).nextStartTime
      = chunkStart st0 now1 + d1 + d2 := by
    show chunkStart (processChunk st0 d1 now1) now2 + d2 = _
    rw [hc2]
  have hc3 : chunkStart (processChunk (processChunk st0 d1 now1) d2 now2) now3
      = chunkStart st0 now1 + d1 + d2 := by
    rw [chunkStart_of_le _ _ (by rw [hn2]; exact h3)]
    exact hn2
  have hs : (processChunk (processChunk (processChunk st0 d1 now1) d2 now2) d3 now3).scheduled
      = ((st0.scheduled ++ [(chunkStart st0 now1, d1)])
          ++ [(chunkStart (processChunk st0 d1 now1) now2, d2)])
          ++ [(chunkStart (processChunk (processChunk st0 d1 now1) d2 now2) now3, d3)] := rfl
  rw [hc2, hc3] at hs
  refine ⟨?_, chunkStart_ge st0 now1, h2, h3⟩
  rw [hs]
  simp

/-- Witness for C1 (amended) at `st0 = initSched`, unit durations, all
arrivals at clock time 0. -/
theorem c1_witness :
    (0 : ℚ) ≤ chunkStart initSched 0 + 1
    ∧ (processChunk (processChunk (processChunk initSched 1 0) 1 0) 1 0).scheduled
        = initSched.scheduled ++ [(chunkStart initSched 0, 1), (chunkStart initSched 0 + 1, 1),
            (chunkStart initSched 0 + 1 + 1, 1)] := by
  have h2 : (0 : ℚ) ≤ chunkStart initSched 0 + 1 := by
    norm_num [chunkStart, initSched]
  have h3 : (0 : ℚ) ≤ chunkStart initSched 0 + 1 + 1 := by
    norm_num [chunkStart, initSched]
  exact ⟨h2, (c1_contiguous_no_stall initSched 1 1 1 0 0 0 h2 h3).1⟩

/-- C2: processing an `Interrupted` event stops every buffer of the
scheduled-source set (errors from stopping an already-finished buffer are
ignored — stopping is modelled as always succeeding), leaves the set empty,
and resets the cursor to 0; the next chunk scheduled afterwards starts at
`chunkStart`, which is never earlier than the output clock time. -/
theorem c2_interrupt_flush (st : SchedState) (d now : ℚ) :
    (processInterrupt st).scheduled = []
    ∧ (processInterrupt st).nextStartTime = 0
    ∧ (∀ src ∈ st.scheduled, src ∈ (processInterrupt st).stopped)
    ∧ now ≤ chunkStart (processInterrupt st) now
    ∧ (processChunk (processInterrupt st) d now).scheduled
        = [(chunkStart (processInterrupt st) now, d)] := by
  refine ⟨rfl, rfl, ?_, chunkStart_ge _ now, rfl⟩
  intro src h
  show src ∈ st.stopped ++ st.scheduled
  exact List.mem_append_right _ h

/-- Witness for C2: a state with cursor 3 and one scheduled buffer; the
interrupt stops it, empties the set, and a chunk arriving at clock time 2
starts at time 2. -/
theorem c2_witness :
    ((0, 1) ∈ (⟨3, [(0, 1)], []⟩ : SchedState).scheduled)
    ∧ (0, 1) ∈ (processInterrupt (⟨3, [(0, 1)], []⟩ : SchedState)).stopped
    ∧ (processInterrupt (⟨3, [(0, 1)], []⟩ : SchedState)).scheduled = []
    ∧ (2 : ℚ) ≤ chunkStart (processInterrupt (⟨3, [(0, 1)], []⟩ : SchedState)) 2 :=
  ⟨by decide,
   (c2_interrupt_flush (⟨3, [(0, 1)], []⟩ : SchedState) 1 2).2.2.1 (0, 1) (by decide),
   (c2_interrupt_flush (⟨3, [(0, 1)], []⟩ : SchedState) 1 2).1,
   (c2_interrupt_flush (⟨3, [(0, 1)], []⟩ : SchedState) 1 2).2.2.2.1⟩

/-- C5: the capture callback does not read the current mute flag — it reads
the value captured by its closure when `connect()` installed it.
Connecting while unmuted and then pressing mute leaves the UI flag true,
yet all three frames captured while "muted" are still encoded and sent
(the claim requires 0), because the callback still sees the connect-time
value `false`. -/
theorem c5_mute_stale_closure :
    (toggleMute (connectCapture false)).uiMuted = true
    ∧ (sentFrames (toggleMute (connectCapture false))
        [List.replicate 4096 (0 : ℚ), List.replicate 4096 0, List.replicate 4096 0]).length
      = 3 := by
  refine ⟨rfl, ?_⟩
  rw [sentFrames_captured_unmuted _ _ rfl, List.length_map]
  rfl

/-- C6 counterexample: for a fully established session, `disconnect()`
releases, in source order, the stream tracks, the source node, the
processor node, the input context (all Capture), then the output context
(Playback), then the session (Transport) — so the release ranks under the
claimed order Capture, Transport, Playback are not monotone: the Playback
release precedes the Transport release. -/
theorem c6_counterexample :
    disconnectTrace fullApp
      = [RelEvent.stopTracks, RelEvent.disconnectSource, RelEvent.disconnectProcessor,
         RelEvent.closeInputCtx, RelEvent.closeOutputCtx, RelEvent.closeSession]
    ∧ monotoneB ((disconnectTrace fullApp).map (fun e => claimRank (compOf e))) = false := by
  decide

/-- C6 (amended): `disconnect()` is idempotent and safe from any state —
never connected included — always ends with the controller Disconnected and
every resource of Capture, Playback and Transport released, and performs
the releases in the order Capture, then Playback, then Transport. -/
theorem c6_disconnect_idempotent (s : AppState) :
    disconnect (disconnect s) = disconnect s
    ∧ (disconnect s).isConnected = false
    ∧ allReleasedB (disconnect s) = true
    ∧ (disconnect initApp).isConnected = false
    ∧ monotoneB ((disconnectTrace s).map (fun e => codeRank (compOf e))) = true := by
  refine ⟨rfl, rfl, rfl, rfl, ?_⟩
  rcases s with ⟨c, m, lg, r1, r2, r3, r4, r5, r6⟩
  cases r1 <;> cases r2 <;> cases r3 <;> cases r4 <;> cases r5 <;> cases r6 <;> rfl

/-- C7: when `getUserMedia` rejects during `connect()`, the `catch` block
only logs — the input and output audio contexts created just before remain
open, so the output device resource is not released on this failure path
(the claim requires every failure path to release it).  The controller does
remain Disconnected and the microphone was never acquired. -/
theorem c7_device_failure_leaks_contexts :
    (connectDeviceFail initApp).isConnected = false
    ∧ (connectDeviceFail initApp).micHeld = false
    ∧ (connectDeviceFail initApp).inputCtxOpen = true
    ∧ (connectDeviceFail initApp).outputCtxOpen = true
    ∧ allReleasedB (connectDeviceFail initApp) = false := by
  decide

/-- C8 counterexample: in a `connect()` attempt that fails to establish the
session, the microphone acquisition step has already happened — the code
acquires the microphone before attempting the session, so "the microphone
is never acquired during a ConnectionFailed attempt" is false. -/
theorem c8_counterexample :
    CStep.acquireMic ∈ connectAttemptTrace COutcome.connectionFail := by
  decide

/-- C8 (amended): on a `connect()` attempt that fails with ConnectionFailed
the microphone is acquired during the attempt (capture setup precedes the
session attempt), but the frame-processing pipeline never starts — the
processor is wired only inside `onopen`, which never fires — and the
error-path `disconnect()` releases the microphone, leaving the controller
Disconnected. -/
theorem c8_mic_acquired_before_session :
    CStep.acquireMic ∈ connectAttemptTrace COutcome.connectionFail
    ∧ CStep.wireProcessor ∉ connectAttemptTrace COutcome.connectionFail
    ∧ (connectConnectionFail initApp).micHeld = false
    ∧ (connectConnectionFail initApp).isConnected = false
    ∧ allReleasedB (connectConnectionFail initApp) = true := by
  decide

/-- C9 counterexample: a chunk arrives (decode begins, arrival epoch 0), an
interruption is processed (epoch becomes 1), then the decode completes —
and the code schedules the buffer anyway: the scheduled-source set ends
holding a buffer whose chunk arrived before the interruption, so the
interruption did not stop every pre-interruption buffer from being
scheduled afterwards. -/
theorem c9_counterexample :
    (drun [DEv.arrive 0 1, DEv.interrupt, DEv.decodeDone 0 2]).scheduled = [(0, 0)]
    ∧ (drun [DEv.arrive 0 1, DEv.interrupt, DEv.decodeDone 0 2]).epoch = 1
    ∧ ((drun [DEv.arrive 0 1, DEv.interrupt, DEv.decodeDone 0 2]).scheduled.all
        (fun e => e.2 == (drun [DEv.arrive 0 1, DEv.interrupt, DEv.decodeDone 0 2]).epoch))
      = false := by
  refine ⟨?_, ?_, ?_⟩ <;> norm_num [drun, dstep, initDec, List.find?]

/-- C9 (amended): when the `Interrupted` event is processed, every buffer
then in the scheduled-source set is stopped and the set is emptied (and the
cursor reset) before any later event is handled; however a chunk whose
decode is still in flight is not cancelled — its buffer is scheduled when
the decode completes, even though the chunk arrived before the
interruption. -/
theorem c9_interrupt_flushes_scheduled (st : DecState) :
    (dstep st DEv.interrupt).scheduled = []
    ∧ (dstep st DEv.interrupt).pending = st.pending
    ∧ (dstep st DEv.interrupt).nextStartTime = 0
    ∧ ∀ x ∈ st.scheduled, x.1 ∈ (dstep st DEv.interrupt).stopped := by
  refine ⟨rfl, rfl, rfl, ?_⟩
  intro x hx
  show x.1 ∈ st.stopped ++ st.scheduled.map (fun y => y.1)
  exact List.mem_append_right _ (List.mem_map_of_mem _ hx)

/-- Witness for C9 (amended): a state with one scheduled buffer (id 3);
the interrupt stops it and empties the set. -/
theorem c9_witness :
    ((3, 0) ∈ (⟨1, [], [(3, 0)], [], 5⟩ : DecState).scheduled)
    ∧ 3 ∈ (dstep (⟨1, [], [(3, 0)], [], 5⟩ : DecState) DEv.interrupt).stopped
    ∧ (dstep (⟨1, [], [(3, 0)], [], 5⟩ : DecState) DEv.interrupt).scheduled = [] :=
  ⟨by decide,
   (c9_interrupt_flushes_scheduled (⟨1, [], [(3, 0)], [], 5⟩ : DecState)).2.2.2 (3, 0)
     (by decide),
   (c9_interrupt_flushes_scheduled (⟨1, [], [(3, 0)], [], 5⟩ : DecState)).1⟩

/-- C10: after `disconnect()` the user-facing session state is fully reset:
the mute flag is false and the status log is empty, so a capture callback
installed by a subsequent `connect()` captures an unmuted flag regardless
of the previous session's mute state. -/
theorem c10_disconnect_resets_ui (s : AppState) :
    (disconnect s).isMuted = false
    ∧ (disconnect s).logs = []
    ∧ (connectCapture (disconnect s).isMuted).capturedMuted = false :=
  ⟨rfl, rfl, rfl⟩
